import Mathlib

/-!
# AdminUserConsole: the user-management screen

A shallow embedding of `UserManagement.jsx`: the React state hooks become one
record `ConsoleState`, every event handler becomes a function on that record,
and the network is an explicit input (the reply each request receives) and an
explicit output (the list of requests a handler sends).
-/

namespace UserManagement

/-! ## Data model -/

/-- Course of the catalog: `_id`, `name` and the optional `price`. -/
structure Course where
  _id : String
  name : String
  price : Option Nat
deriving DecidableEq, Repr

/-- Value of the `courseId` field of an enrollment record: `absent` stands for
`null` and `undefined`, `direct` for a plain id string, `inline` for a populated
course object. -/
inductive CourseRef where
  | absent : CourseRef
  | direct (id : String) : CourseRef
  | inline (course : Course) : CourseRef
deriving DecidableEq, Repr

/-- JavaScript truthiness of a `courseId` value: `null`, `undefined` and the
empty string are falsy, every object is truthy. -/
def CourseRef.truthy : CourseRef → Bool
  | .absent => false
  | .direct id => id != ""
  | .inline _ => true

/-- The expression `typeof e.courseId === "object" ? e.courseId._id : e.courseId`
on a truthy value; a falsy value is returned as it is, the empty string standing
for it. -/
def CourseRef.refId : CourseRef → String
  | .absent => ""
  | .direct id => id
  | .inline course => course._id

/-- Element of `user.enrolledCourses`. -/
structure EnrollmentRecord where
  status : String
  courseId : CourseRef
deriving DecidableEq, Repr

/-- User of the roster; `enrolledCourses` is `none` when the field is missing. -/
structure User where
  _id : String
  name : String
  email : String
  phoneNumber : String
  selectedCategory : String
  enrolledCourses : Option (List EnrollmentRecord)
deriving DecidableEq, Repr

/-! ## Enrollment eligibility (lines 159-167) -/

/-- The filter predicate `e.status === "unlocked" && e.courseId`. -/
def isActiveEnrollment (e : EnrollmentRecord) : Bool :=
  e.status == "unlocked" && e.courseId.truthy

/-- Source function `getEnrolledCourseIds`. -/
def getEnrolledCourseIds (user : User) : List String :=
  ((user.enrolledCourses.getD []).filter isActiveEnrollment).map
    (fun e => e.courseId.refId)

/-- The derived value `availableCoursesForUser`. -/
def availableCoursesForUser (selectedUser : Option User) (courses : List Course) :
    List Course :=
  match selectedUser with
  | some user => courses.filter (fun c => !(getEnrolledCourseIds user).contains c._id)
  | none => courses

/-- What the claim calls a record referring to a course id: the record holds
the id directly, or holds an inline course object with that id. -/
def refersTo (e : EnrollmentRecord) (id : String) : Prop :=
  e.courseId = CourseRef.direct id ∨ ∃ c : Course, e.courseId = CourseRef.inline c ∧ c._id = id

/-! ## Numbers -/

/-- A JavaScript number as far as this screen meets one: `NaN`, an integer
that a double holds, or an infinity. Negative zero is not told apart from
zero: both are falsy and nothing else on the screen reads the sign. -/
inductive JsNumber where
  | nan : JsNumber
  | finite (value : Int) : JsNumber
  | infinity (negative : Bool) : JsNumber
deriving DecidableEq, Repr

/-- Numeric literals of the source, such as the `12` of line 32. -/
instance (n : Nat) : OfNat JsNumber n :=
  ⟨JsNumber.finite n⟩

/-- Whether a number is a finite value between the two bounds. -/
def JsNumber.inRange (lo hi : Int) : JsNumber → Bool
  | .finite v => decide (lo ≤ v ∧ v ≤ hi)
  | _ => false

/-- The 53-bit significand of the double nearest to `n` when `e` low bits are
dropped: the quotient, rounded to nearest, a tie going to the even one. -/
def roundedSignificand (n e : Nat) : Nat :=
  let q := n / 2 ^ e
  let r := n % 2 ^ e
  if 2 ^ (e - 1) < r ∨ (r = 2 ^ (e - 1) ∧ q % 2 = 1) then q + 1 else q

/-- How many low bits a number has beyond the 53 that a double keeps: the
number of halvings that bring it below 2^53. The first argument bounds the
recursion; the number itself is bound enough. -/
def excessBits : Nat → Nat → Nat
  | 0, _ => 0
  | fuel + 1, n => if n < 2 ^ 53 then 0 else excessBits fuel (n / 2) + 1

/-- The double nearest to a natural number, ties going to the even
significand; `none` when the result reaches 2^1024, beyond the largest double
(2^53 - 1) * 2^971, which is where JavaScript gives `Infinity`. Below 2^53 every
integer is a double. -/
def roundToDouble (n : Nat) : Option Nat :=
  if n < 2 ^ 53 then some n
  else
    let e := excessBits n n
    let m := roundedSignificand n e
    if e < 971 ∨ (e = 971 ∧ m < 2 ^ 53) then some (m * 2 ^ e) else none

/-- The number value of a signed mathematical integer. -/
def JsNumber.ofMathInt (negative : Bool) (n : Nat) : JsNumber :=
  match roundToDouble n with
  | some v => JsNumber.finite (if negative then -(v : Int) else (v : Int))
  | none => JsNumber.infinity negative

/-! ## Console state (lines 8-33) -/

/-- The draft of the create-user form, state hook `newUser`. -/
structure NewUser where
  name : String
  email : String
  phoneNumber : String
  gender : String
  city : String
  selectedCategory : String
  selectedExam : String
deriving DecidableEq, Repr

/-- The draft of the enroll form, state hook `enrollData`. -/
structure EnrollData where
  courseId : String
  validityMonths : JsNumber
deriving DecidableEq, Repr

/-- Value of the `toast` hook; `message` is `none` when `showToast` received
`undefined`. -/
structure Toast where
  message : Option String
  type : String
deriving DecidableEq, Repr

/-- All the state hooks of the component. -/
structure ConsoleState where
  users : List User
  courses : List Course
  loading : Bool
  searchTerm : String
  showCreateModal : Bool
  showEnrollModal : Bool
  selectedUser : Option User
  toast : Option Toast
  page : Int
  totalPages : Int
  actionLoading : Bool
  newUser : NewUser
  enrollData : EnrollData
deriving DecidableEq, Repr

/-- The empty create-user draft of lines 20-28 and 95. -/
def emptyNewUser : NewUser :=
  ⟨"", "", "", "", "", "CAT", ""⟩

/-- The enroll draft of lines 30-33, 125 and 155. -/
def emptyEnrollData : EnrollData :=
  ⟨"", 12⟩

/-- The state on mount, from the arguments of the `useState` calls. -/
def initialState : ConsoleState :=
  { users := [], courses := [], loading := true, searchTerm := "",
    showCreateModal := false, showEnrollModal := false, selectedUser := none,
    toast := none, page := 1, totalPages := 1, actionLoading := false,
    newUser := emptyNewUser, enrollData := emptyEnrollData }

/-! ## The network -/

/-- A request handed to `axios`, with its query parameters or its body. -/
inductive Request where
  | listUsers (search : String) (page : Int) (limit : Int) : Request
  | listCourses : Request
  | createUser (body : NewUser) : Request
  | enrollUser (userId : String) (courseId : String) (validityMonths : JsNumber) : Request
  | removeEnrollment (userId : String) (courseId : String) : Request
deriving DecidableEq, Repr

/-- The three `axios.post` requests. -/
def Request.isPost : Request → Bool
  | .createUser _ => true
  | .enrollUser _ _ _ => true
  | .removeEnrollment _ _ => true
  | _ => false

/-- What an `axios.post` call comes back with: `resolved` carries
`res.data.success` and `res.data.message`; `rejected` is a thrown error and
carries `err.response?.data?.message`. -/
inductive PostReply where
  | resolved (success : Bool) (message : Option String) : PostReply
  | rejected (message : Option String) : PostReply
deriving DecidableEq, Repr

/-- Whether the reply passes the test `res.data.success` of the handlers. -/
def PostReply.succeeded : PostReply → Bool
  | .resolved success _ => success
  | .rejected _ => false

/-- What the roster request comes back with. -/
inductive UsersReply where
  | resolved (success : Bool) (users : List User) (totalPages : Int) : UsersReply
  | rejected : UsersReply
deriving DecidableEq, Repr

/-- Result of running a handler: the state it leaves, the requests it sent and
the `showToast` calls it made, both in order. -/
structure Outcome where
  state : ConsoleState
  requests : List Request
  toasts : List Toast
deriving DecidableEq, Repr

/-- A handler that has done nothing yet. -/
def Outcome.start (s : ConsoleState) : Outcome :=
  ⟨s, [], []⟩

/-- Source function `showToast` as the handlers see it: the slot is overwritten
and the call is logged. The timer it starts is modelled in `Notification`. -/
def showToast (message : Option String) (type : String) (o : Outcome) : Outcome :=
  { o with state := { o.state with toast := some ⟨message, type⟩ },
           toasts := o.toasts ++ [⟨message, type⟩] }

/-- The expression `m || fallback` on an optional string: `undefined` and the
empty string are falsy. -/
def messageOr (m : Option String) (fallback : String) : String :=
  match m with
  | some x => if x = "" then fallback else x
  | none => fallback

/-- Source function `fetchUsers` (lines 45-62), run on top of what the caller
has done so far. -/
def fetchUsers (reply : UsersReply) (o : Outcome) : Outcome :=
  let s := o.state
  let sent : Outcome :=
    { o with state := { s with loading := true },
             requests := o.requests ++ [Request.listUsers s.searchTerm s.page 30] }
  let settled : Outcome :=
    match reply with
    | .resolved true users totalPages =>
        { sent with state := { sent.state with users := users, totalPages := totalPages } }
    | .resolved false _ _ => sent
    | .rejected => showToast (some "Failed to load users") "error" sent
  { settled with state := { settled.state with loading := false } }

/-- Source function `handleCreateUser` (lines 85-103). -/
def handleCreateUser (s : ConsoleState) (reply : PostReply) (roster : UsersReply) : Outcome :=
  let sent : Outcome :=
    ⟨{ s with actionLoading := true }, [Request.createUser s.newUser], []⟩
  let settled : Outcome :=
    match reply with
    | .resolved true _ =>
        let o1 := showToast (some "User created successfully!") "success" sent
        let o2 : Outcome :=
          { o1 with state := { o1.state with showCreateModal := false, newUser := emptyNewUser } }
        fetchUsers roster o2
    | .resolved false _ => sent
    | .rejected message => showToast (some (messageOr message "Failed to create user")) "error" sent
  { settled with state := { settled.state with actionLoading := false } }

/-- Source function `handleEnrollUser` (lines 105-134). -/
def handleEnrollUser (s : ConsoleState) (reply : PostReply) (roster : UsersReply) : Outcome :=
  match s.selectedUser with
  | none => showToast (some "Please select a course") "error" (Outcome.start s)
  | some user =>
    if s.enrollData.courseId = "" then
      showToast (some "Please select a course") "error" (Outcome.start s)
    else
      let sent : Outcome :=
        ⟨{ s with actionLoading := true },
         [Request.enrollUser user._id s.enrollData.courseId s.enrollData.validityMonths], []⟩
      let settled : Outcome :=
        match reply with
        | .resolved true message =>
            let o1 := showToast message "success" sent
            let o2 : Outcome :=
              { o1 with state := { o1.state with showEnrollModal := false,
                                                 enrollData := emptyEnrollData,
                                                 selectedUser := none } }
            fetchUsers roster o2
        | .resolved false _ => sent
        | .rejected message =>
            showToast (some (messageOr message "Failed to enroll user")) "error" sent
      { settled with state := { settled.state with actionLoading := false } }

/-- The text handed to `window.confirm` on line 137; character 34 is the
double quote. -/
def confirmPrompt (courseName : String) : String :=
  "Remove enrollment for " ++ String.singleton (Char.ofNat 34) ++ courseName ++
    String.singleton (Char.ofNat 34) ++ "?"

/-- Source function `handleRemoveEnrollment` (lines 136-151); `confirm` is
`window.confirm`, the answer of the operator to a prompt. -/
def handleRemoveEnrollment (confirm : String → Bool) (s : ConsoleState) (userId : String)
    (courseId : String) (courseName : String) (reply : PostReply) (roster : UsersReply) :
    Outcome :=
  if !confirm (confirmPrompt courseName) then Outcome.start s
  else
    let sent : Outcome := ⟨s, [Request.removeEnrollment userId courseId], []⟩
    match reply with
    | .resolved true _ => fetchUsers roster (showToast (some "Enrollment removed") "success" sent)
    | .resolved false _ => sent
    | .rejected _ => showToast (some "Failed to remove enrollment") "error" sent

/-- Source function `openEnrollModal` (lines 153-157). -/
def openEnrollModal (s : ConsoleState) (user : User) : ConsoleState :=
  { s with selectedUser := some user, enrollData := emptyEnrollData, showEnrollModal := true }

/-- The change handler of the search input (lines 195-198). -/
def onSearchChange (s : ConsoleState) (value : String) : ConsoleState :=
  { s with searchTerm := value, page := 1 }

/-- The change handler of the course select (line 404). -/
def onCourseChange (s : ConsoleState) (value : String) : ConsoleState :=
  { s with enrollData := { s.enrollData with courseId := value } }

/-! ## The validity input (lines 417-426) -/

/-- White space that `parseInt` skips at the start of its argument: the
ECMAScript `WhiteSpace` and `LineTerminator` code points. -/
def isWhiteSpace (c : Char) : Bool :=
  let n := c.toNat
  n = 0x09 || n = 0x0A || n = 0x0B || n = 0x0C || n = 0x0D || n = 0x20 || n = 0xA0 ||
  n = 0x1680 || (0x2000 ≤ n && n ≤ 0x200A) || n = 0x2028 || n = 0x2029 || n = 0x202F ||
  n = 0x205F || n = 0x3000 || n = 0xFEFF

/-- Value of a character as a digit, letters counting from ten. -/
def digitValue (c : Char) : Option Nat :=
  let n := c.toNat
  if 48 ≤ n ∧ n ≤ 57 then some (n - 48)
  else if 97 ≤ n ∧ n ≤ 122 then some (n - 97 + 10)
  else if 65 ≤ n ∧ n ≤ 90 then some (n - 65 + 10)
  else none

/-- Whether a character is a digit of the given radix. -/
def isRadixDigit (radix : Nat) (c : Char) : Bool :=
  match digitValue c with
  | some d => decide (d < radix)
  | none => false

/-- Value of a run of digits in the given radix. -/
def digitsValue (radix : Nat) (ds : List Char) : Nat :=
  ds.foldl (fun acc c => acc * radix + (digitValue c).getD 0) 0

/-- What `parseInt` reads in its argument: leading white space is skipped, one
sign is read, `0x` or `0X` selects radix 16, and the longest run of digits
follows. The result is the sign (true for minus) and the value of the run, or
`none` when the run is empty. -/
def scanInt (text : String) : Option (Bool × Nat) :=
  let cs := text.toList.dropWhile isWhiteSpace
  let signed : Bool × List Char :=
    match cs with
    | '-' :: rest => (true, rest)
    | '+' :: rest => (false, rest)
    | _ => (false, cs)
  let based : Nat × List Char :=
    match signed.2 with
    | '0' :: 'x' :: rest => (16, rest)
    | '0' :: 'X' :: rest => (16, rest)
    | _ => (10, signed.2)
  let ds := based.2.takeWhile (isRadixDigit based.1)
  if ds.isEmpty then none else some (signed.1, digitsValue based.1 ds)

/-- The integer a text denotes, as an exact integer; `none` when the text is
non-numeric, that is, when `parseInt` finds no digit to read. -/
def integerValue (text : String) : Option Int :=
  (scanInt text).map (fun p => if p.1 then -(p.2 : Int) else (p.2 : Int))

/-- The built-in `parseInt(text)` with no radix argument: `NaN` when no digit
is read, otherwise the double nearest to the signed value of the digits. For a
decimal run of more than 20 significant digits the standard lets an engine
zero the later digits before rounding; the value here is the correctly rounded
one. -/
def parseInt (text : String) : JsNumber :=
  match scanInt text with
  | none => JsNumber.nan
  | some (negative, n) => JsNumber.ofMathInt negative n

/-- The expression `n || fallback` on a number: `NaN` and zero are falsy. -/
def numberOr (n : JsNumber) (fallback : JsNumber) : JsNumber :=
  match n with
  | .nan => fallback
  | .finite v => if v = 0 then fallback else JsNumber.finite v
  | .infinity negative => JsNumber.infinity negative

/-- The change handler of the validity input (line 424). -/
def onValidityChange (s : ConsoleState) (value : String) : ConsoleState :=
  { s with enrollData := { s.enrollData with validityMonths := numberOr (parseInt value) 12 } }

/-! ## The create form (lines 300-380) -/

/-- Constraint validation of the create form, which the browser runs before it
fires the submit event: the name input is `required`, the email input has
`type="email"`; `validEmail` is the check of the browser on a non-empty email.
No other control of the form carries a constraint that a typed value can
break. -/
def createFormValid (validEmail : String → Bool) (d : NewUser) : Bool :=
  d.name != "" && (d.email == "" || validEmail d.email)

/-- Pressing the submit button of the create form: `onSubmit`, which is
`handleCreateUser`, runs only when the constraints hold. -/
def submitCreateForm (validEmail : String → Bool) (s : ConsoleState) (reply : PostReply)
    (roster : UsersReply) : Outcome :=
  if createFormValid validEmail s.newUser then handleCreateUser s reply roster
  else Outcome.start s

/-! ## The enrolled-courses cell (lines 234-261) -/

/-- Child of the `um-enrolled-list` element: a badge with its label and the
arguments its remove button passes to `handleRemoveEnrollment`, or the
placeholder. -/
inductive CellNode where
  | badge (label : String) (userId : String) (courseId : String) (courseName : String) : CellNode
  | noCourses : CellNode
deriving DecidableEq, Repr

/-- The body of the `map` callback of lines 237-257. -/
def renderBadge (user : User) (e : EnrollmentRecord) : CellNode :=
  match e.courseId with
  | .inline course => CellNode.badge course.name user._id course._id course.name
  | other => CellNode.badge "Course" user._id other.refId "this course"

/-- The badges of lines 235-257. -/
def enrolledBadges (user : User) : List CellNode :=
  ((user.enrolledCourses.getD []).filter isActiveEnrollment).map (renderBadge user)

/-- The placeholder of lines 258-260. -/
def noCoursesPlaceholder (user : User) : List CellNode :=
  if ((user.enrolledCourses.getD []).filter (fun e => e.status == "unlocked")).length = 0
  then [CellNode.noCourses] else []

/-- The children of the `um-enrolled-list` element of one roster row. -/
def enrolledCell (user : User) : List CellNode :=
  enrolledBadges user ++ noCoursesPlaceholder user

/-! ## The notification slot and its timers (lines 40-43) -/

namespace Notification

/-- The `toast` hook together with the due times, in milliseconds, of the
timers that `setTimeout` has started and that have not fired yet. -/
structure Channel where
  toast : Option Toast
  timers : List Nat
deriving DecidableEq, Repr

/-- Source function `showToast` called at time `now`: the slot is set and a
timer that clears the slot is started; no earlier timer is cancelled. -/
def showToast (now : Nat) (message : Option String) (type : String) (ch : Channel) : Channel :=
  { toast := some ⟨message, type⟩, timers := ch.timers ++ [now + 4000] }

/-- The event loop reaching time `now`: every timer that is due runs its
callback `setToast(null)`. -/
def fireTimers (now : Nat) (ch : Channel) : Channel :=
  if ch.timers.any (fun due => decide (due ≤ now)) then
    { toast := none, timers := ch.timers.filter (fun due => decide (now < due)) }
  else ch

/-- One call of `showToast`, with the time at which it is made. -/
structure Call where
  time : Nat
  message : Option String
  type : String
deriving DecidableEq, Repr

/-- A sequence of calls, in the order they are made, run from a channel. -/
def runCalls : List Call → Channel → Channel
  | [], ch => ch
  | c :: cs, ch => runCalls cs (showToast c.time c.message c.type (fireTimers c.time ch))

/-- The notification on screen at time `t` after the given calls, all made at
or before `t`, on a freshly mounted component. -/
def visibleAt (calls : List Call) (t : Nat) : Option Toast :=
  (fireTimers t (runCalls calls ⟨none, []⟩)).toast

/-- What the claim says is on screen at time `t`: the most recently raised
notification when it was raised less than 4 seconds before `t`. -/
def claimedVisibleAt (calls : List Call) (t : Nat) : Option Toast :=
  match calls.getLast? with
  | some c => if t < c.time + 4000 then some ⟨c.message, c.type⟩ else none
  | none => none

end Notification

/-! ## Inputs used by the concrete checks -/

/-- A user whose only record is unlocked and holds the empty string as its
course id. -/
def userWithEmptyRef : User :=
  ⟨"u1", "Asha", "asha@example.com", "", "CAT", some [⟨"unlocked", CourseRef.direct ""⟩]⟩

/-- A course whose id is the empty string. -/
def courseWithEmptyId : Course :=
  ⟨"", "Algebra", none⟩

/-- A user with no `enrolledCourses` field. -/
def userWithoutList : User :=
  ⟨"u2", "Ravi", "", "9999999999", "XAT", none⟩

/-- A user whose only record is unlocked and whose course is gone: the
`courseId` is `null`. -/
def userWithDanglingRecord : User :=
  ⟨"u3", "Meera", "meera@example.com", "", "CAT", some [⟨"unlocked", CourseRef.absent⟩]⟩

/-- A catalog of two courses. -/
def sampleCatalog : List Course :=
  [⟨"c1", "Quant", some 4999⟩, ⟨"c2", "Verbal", none⟩]

/-- A state with a user selected and a course chosen in the enroll draft. -/
def readyToEnroll : ConsoleState :=
  onCourseChange (openEnrollModal initialState userWithoutList) "c1"

/-! ## Enrollment eligibility: proofs -/

/-- Membership in `getEnrolledCourseIds`. -/
theorem mem_getEnrolledCourseIds (user : User) (id : String) :
    id ∈ getEnrolledCourseIds user ↔
      ∃ e ∈ user.enrolledCourses.getD [],
        e.status = "unlocked" ∧ e.courseId.truthy = true ∧ e.courseId.refId = id := by
  simp [getEnrolledCourseIds, isActiveEnrollment, List.mem_map, List.mem_filter, and_assoc]

/-- A truthy reference yields the id it refers to, and only that one. -/
theorem refId_eq_iff_refersTo (e : EnrollmentRecord) (id : String)
    (h : e.courseId.truthy = true) : e.courseId.refId = id ↔ refersTo e id := by
  unfold refersTo
  cases hc : e.courseId with
  | absent => simp [hc, CourseRef.truthy] at h
  | direct d => simp [CourseRef.refId]
  | inline c => simp [CourseRef.refId]

/-- Membership in the courses on offer, in terms of the id list. -/
theorem mem_availableCoursesForUser (user : User) (courses : List Course) (c : Course) :
    c ∈ availableCoursesForUser (some user) courses ↔
      c ∈ courses ∧ c._id ∉ getEnrolledCourseIds user := by
  simp [availableCoursesForUser, List.mem_filter]

/-- A record that refers to a non-empty id has a truthy `courseId`. -/
theorem truthy_of_refersTo (e : EnrollmentRecord) (id : String) (hid : id ≠ "")
    (h : refersTo e id) : e.courseId.truthy = true := by
  rcases h with h | ⟨c, h, _⟩
  · simp [h, CourseRef.truthy, hid]
  · simp [h, CourseRef.truthy]

/-- C1, as amended: a course is offered for the selected user if and only if it
is in the catalog and no record of the user with status unlocked and a truthy
`courseId` refers to its id, directly or through an inline course object;
records with another status, or with a falsy `courseId`, exclude nothing. For
a course whose id is not the empty string the truthiness condition can be
dropped. -/
theorem availableCoursesForUser_mem_iff (user : User) (courses : List Course) (c : Course) :
    (c ∈ availableCoursesForUser (some user) courses ↔
      c ∈ courses ∧
        ¬ ∃ e ∈ user.enrolledCourses.getD [],
            e.status = "unlocked" ∧ e.courseId.truthy = true ∧ refersTo e c._id) ∧
    (c._id ≠ "" →
      (c ∈ availableCoursesForUser (some user) courses ↔
        c ∈ courses ∧
          ¬ ∃ e ∈ user.enrolledCourses.getD [], e.status = "unlocked" ∧ refersTo e c._id)) := by
  have key : c._id ∈ getEnrolledCourseIds user ↔
      (∃ e ∈ user.enrolledCourses.getD [],
        e.status = "unlocked" ∧ e.courseId.truthy = true ∧ refersTo e c._id) := by
    rw [mem_getEnrolledCourseIds]
    constructor
    · rintro ⟨e, he, hs, ht, hr⟩
      exact ⟨e, he, hs, ht, (refId_eq_iff_refersTo e c._id ht).1 hr⟩
    · rintro ⟨e, he, hs, ht, hr⟩
      exact ⟨e, he, hs, ht, (refId_eq_iff_refersTo e c._id ht).2 hr⟩
  refine ⟨?_, ?_⟩
  · rw [mem_availableCoursesForUser, key]
  · intro hid
    rw [mem_availableCoursesForUser, key]
    have drop : (∃ e ∈ user.enrolledCourses.getD [],
          e.status = "unlocked" ∧ e.courseId.truthy = true ∧ refersTo e c._id) ↔
        (∃ e ∈ user.enrolledCourses.getD [], e.status = "unlocked" ∧ refersTo e c._id) := by
      constructor
      · rintro ⟨e, he, hs, _, hr⟩
        exact ⟨e, he, hs, hr⟩
      · rintro ⟨e, he, hs, hr⟩
        exact ⟨e, he, hs, truthy_of_refersTo e c._id hid hr, hr⟩
    rw [drop]

/-- C1, witness: course `c1` of the sample catalog has a non-empty id, and for
the user without records it is on offer exactly as the unguarded condition
says. -/
theorem availableCoursesForUser_mem_iff_witness :
    (⟨"c1", "Quant", some 4999⟩ : Course) ∈
        availableCoursesForUser (some userWithoutList) sampleCatalog ↔
      (⟨"c1", "Quant", some 4999⟩ : Course) ∈ sampleCatalog ∧
        ¬ ∃ e ∈ userWithoutList.enrolledCourses.getD [],
            e.status = "unlocked" ∧ refersTo e "c1" :=
  (availableCoursesForUser_mem_iff userWithoutList sampleCatalog ⟨"c1", "Quant", some 4999⟩).2
    (by decide)

/-- C1, counterexample: the course with the empty id stays on offer although an
unlocked record of the user holds that very id directly. -/
theorem availableCoursesForUser_empty_id_counterexample :
    courseWithEmptyId ∈ availableCoursesForUser (some userWithEmptyRef) [courseWithEmptyId] ∧
      ∃ e ∈ userWithEmptyRef.enrolledCourses.getD [],
        e.status = "unlocked" ∧ refersTo e courseWithEmptyId._id := by
  refine ⟨by decide, ⟨"unlocked", CourseRef.direct ""⟩, by decide, rfl, Or.inl rfl⟩

/-- C2: with no user selected, or with a selected user none of whose records
has status unlocked (a missing list included), the courses on offer are the
whole catalog in its order. -/
theorem availableCoursesForUser_eq_catalog (selectedUser : Option User) (courses : List Course)
    (h : selectedUser = none ∨
      ∃ user, selectedUser = some user ∧
        ∀ e ∈ user.enrolledCourses.getD [], e.status ≠ "unlocked") :
    availableCoursesForUser selectedUser courses = courses := by
  rcases h with h | ⟨user, hu, hall⟩
  · subst h; rfl
  · subst hu
    have hids : getEnrolledCourseIds user = [] := by
      simp only [getEnrolledCourseIds, List.map_eq_nil_iff, List.filter_eq_nil_iff]
      intro e he
      simp [isActiveEnrollment, hall e he]
    simp [availableCoursesForUser, hids]

/-- C2, witness: a user without an `enrolledCourses` field is offered the whole
sample catalog. -/
theorem availableCoursesForUser_eq_catalog_witness :
    (∀ e ∈ userWithoutList.enrolledCourses.getD [], e.status ≠ "unlocked") ∧
      availableCoursesForUser (some userWithoutList) sampleCatalog = sampleCatalog :=
  ⟨by simp [userWithoutList],
   availableCoursesForUser_eq_catalog (some userWithoutList) sampleCatalog
     (Or.inr ⟨userWithoutList, rfl, by simp [userWithoutList]⟩)⟩

/-! ## The validity input: proofs -/

/-- The value the change handler stores. -/
theorem onValidityChange_validityMonths (s : ConsoleState) (text : String) :
    (onValidityChange s text).enrollData.validityMonths = numberOr (parseInt text) 12 := rfl

/-- Rounding keeps every natural number below 2^53. -/
theorem roundToDouble_small (n : Nat) (h : n < 2 ^ 53) : roundToDouble n = some n := by
  unfold roundToDouble
  rw [if_pos h]

/-- The rounded significand is at least the quotient. -/
theorem le_roundedSignificand (n e : Nat) : n / 2 ^ e ≤ roundedSignificand n e := by
  unfold roundedSignificand
  dsimp only
  split
  · exact Nat.le_succ _
  · exact Nat.le_refl _

/-- Dropping one bit more is halving first. -/
theorem div_two_pow_succ (n k : Nat) : n / 2 ^ (k + 1) = n / 2 / 2 ^ k := by
  rw [Nat.div_div_eq_div_mul, Nat.pow_succ, Nat.mul_comm]

/-- Dropping the excess bits leaves at least 53 bits. -/
theorem le_div_excessBits (fuel n : Nat) (h : 2 ^ 52 ≤ n) :
    2 ^ 52 ≤ n / 2 ^ excessBits fuel n := by
  induction fuel generalizing n with
  | zero => simpa [excessBits] using h
  | succ fuel ih =>
    unfold excessBits
    split
    · simpa using h
    · rename_i hge
      have h2 : 2 ^ 52 ≤ n / 2 := by omega
      have := ih (n / 2) h2
      rw [div_two_pow_succ]
      exact this

/-- Dropping the excess bits leaves at most 53 bits. -/
theorem div_excessBits_lt (fuel n : Nat) (h : n ≤ fuel) :
    n / 2 ^ excessBits fuel n < 2 ^ 53 := by
  induction fuel generalizing n with
  | zero =>
    have : n = 0 := by omega
    subst this
    decide
  | succ fuel ih =>
    unfold excessBits
    split
    · rename_i hlt
      simpa using hlt
    · rename_i hge
      have h2 : n / 2 ≤ fuel := by omega
      have := ih (n / 2) h2
      rw [div_two_pow_succ]
      exact this

/-- A number from 2^53 on has at least one excess bit. -/
theorem one_le_excessBits (n : Nat) (h : 2 ^ 53 ≤ n) : 1 ≤ excessBits n n := by
  cases n with
  | zero => exact absurd h (by decide)
  | succ k =>
    unfold excessBits
    rw [if_neg (Nat.not_lt.mpr h)]
    exact Nat.le_add_left 1 _

/-- Rounding a natural number from 2^53 on gives at least 2^53. -/
theorem roundToDouble_large (n v : Nat) (h : 2 ^ 53 ≤ n) (hv : roundToDouble n = some v) :
    2 ^ 53 ≤ v := by
  have h52 : 2 ^ 52 ≤ n := Nat.le_trans (by decide) h
  have hup : 2 ^ 52 ≤ roundedSignificand n (excessBits n n) :=
    Nat.le_trans (le_div_excessBits n n h52) (le_roundedSignificand n _)
  have h2e : 2 ^ 1 ≤ 2 ^ excessBits n n :=
    Nat.pow_le_pow_right (by decide) (one_le_excessBits n h)
  unfold roundToDouble at hv
  rw [if_neg (Nat.not_lt.mpr h)] at hv
  dsimp only at hv
  split at hv
  · injection hv with hv
    rw [← hv]
    exact Nat.mul_le_mul hup h2e
  · exact absurd hv (by simp)

/-- A finite number other than zero is truthy. -/
theorem numberOr_finite (x : Int) (hx : x ≠ 0) :
    numberOr (JsNumber.finite x) 12 = JsNumber.finite x := by
  simp [numberOr, hx]

/-- The number `parseInt` returns for a value below 2^53 is that value. -/
theorem ofMathInt_small (negative : Bool) (n : Nat) (h : n < 2 ^ 53) :
    JsNumber.ofMathInt negative n =
      JsNumber.finite (if negative then -(n : Int) else (n : Int)) := by
  unfold JsNumber.ofMathInt
  rw [roundToDouble_small n h]

/-- The number `parseInt` returns for a value from 2^53 on is an infinity or a
finite value of magnitude at least 2^53. -/
theorem ofMathInt_large (negative : Bool) (n : Nat) (h : 2 ^ 53 ≤ n) :
    JsNumber.ofMathInt negative n = JsNumber.infinity negative ∨
      ∃ v : Nat, 2 ^ 53 ≤ v ∧
        JsNumber.ofMathInt negative n =
          JsNumber.finite (if negative then -(v : Int) else (v : Int)) := by
  unfold JsNumber.ofMathInt
  cases hr : roundToDouble n with
  | none => exact Or.inl rfl
  | some v => exact Or.inr ⟨v, roundToDouble_large n v h hr, rfl⟩

/-- What the handler stores for a value that `parseInt` has read: 12 for zero,
the value itself below 2^53, and beyond that a number outside [1,60] that is
the one `parseInt` returns. -/
theorem numberOr_ofMathInt (negative : Bool) (n : Nat) :
    (n = 0 → numberOr (JsNumber.ofMathInt negative n) 12 = 12) ∧
    (n ≠ 0 → numberOr (JsNumber.ofMathInt negative n) 12 = JsNumber.ofMathInt negative n) ∧
    (n ≠ 0 → n < 2 ^ 53 →
      numberOr (JsNumber.ofMathInt negative n) 12 =
        JsNumber.finite (if negative then -(n : Int) else (n : Int))) ∧
    (2 ^ 53 ≤ n → (numberOr (JsNumber.ofMathInt negative n) 12).inRange 1 60 = false) := by
  have signed_ne : ∀ v : Nat, v ≠ 0 → (if negative then -(v : Int) else (v : Int)) ≠ 0 := by
    intro v hv
    cases negative <;> simp [hv]
  have big : ∀ v : Nat, 2 ^ 53 ≤ v → v ≠ 0 := by
    intro v hv h0
    rw [h0] at hv
    exact absurd hv (by decide)
  refine ⟨?_, ?_, ?_, ?_⟩
  · intro h0
    subst h0
    rw [ofMathInt_small negative 0 (by decide)]
    cases negative <;> rfl
  · intro hn
    by_cases hs : n < 2 ^ 53
    · rw [ofMathInt_small negative n hs]
      simp [numberOr, signed_ne n hn]
    · rcases ofMathInt_large negative n (Nat.le_of_not_lt hs) with h | ⟨v, hv, h⟩
      · rw [h]; rfl
      · rw [h]
        simp [numberOr, signed_ne v (big v hv)]
  · intro hn hs
    rw [ofMathInt_small negative n hs]
    simp [numberOr, signed_ne n hn]
  · intro hl
    rcases ofMathInt_large negative n hl with h | ⟨v, hv, h⟩
    · rw [h]; rfl
    · rw [h]
      have hv60 : (60 : Int) < (v : Int) := by
        have : (2 : Nat) ^ 53 ≤ v := hv
        have h60 : 60 < v := Nat.lt_of_lt_of_le (by decide) this
        exact_mod_cast h60
      rw [numberOr_finite _ (signed_ne v (big v hv))]
      cases negative
      · simp only [JsNumber.inRange, Bool.false_eq_true, if_false, decide_eq_false_iff_not]
        omega
      · simp only [JsNumber.inRange, if_true, decide_eq_false_iff_not]
        omega

/-- C3, as amended: the stored validityMonths is 12 when the text is
non-numeric or its integer value is 0, and is otherwise the number `parseInt`
returns for the text, whatever its size or sign: the integer value of the text
when that is below 2^53 in magnitude, its rounding to a double beyond. So the
stored value lies in [1,60] exactly when the text is non-numeric or its integer
value is 0 or lies in [1,60]. The chosen course of the draft is kept. -/
theorem onValidityChange_stored (s : ConsoleState) (text : String) :
    ((integerValue text = none ∨ integerValue text = some 0) →
        (onValidityChange s text).enrollData.validityMonths = 12) ∧
    (∀ n : Int, integerValue text = some n → n ≠ 0 →
        (onValidityChange s text).enrollData.validityMonths = parseInt text) ∧
    (∀ n : Int, integerValue text = some n → n ≠ 0 → n.natAbs < 2 ^ 53 →
        (onValidityChange s text).enrollData.validityMonths = JsNumber.finite n) ∧
    ((onValidityChange s text).enrollData.validityMonths.inRange 1 60 = true ↔
      (integerValue text = none ∨ integerValue text = some 0 ∨
        ∃ n : Int, integerValue text = some n ∧ 1 ≤ n ∧ n ≤ 60)) ∧
    (onValidityChange s text).enrollData.courseId = s.enrollData.courseId := by
  rw [onValidityChange_validityMonths]
  unfold integerValue parseInt
  cases hsc : scanInt text with
  | none =>
    refine ⟨fun _ => rfl, ?_, ?_, ?_, rfl⟩
    · intro n h
      exact absurd h (by simp)
    · intro n h
      exact absurd h (by simp)
    · exact ⟨fun _ => Or.inl rfl, fun _ => rfl⟩
  | some p =>
    obtain ⟨negative, m⟩ := p
    obtain ⟨hzero, hkeep, hsmall, hlarge⟩ := numberOr_ofMathInt negative m
    have hsign : ∀ n : Int, (if negative then -(m : Int) else (m : Int)) = n →
        (n = 0 ↔ m = 0) ∧ n.natAbs = m := by
      intro n hn
      cases negative
      · simp only [Bool.false_eq_true, if_false] at hn
        subst hn
        exact ⟨by omega, by omega⟩
      · simp only [if_true] at hn
        subst hn
        exact ⟨by omega, by omega⟩
    simp only [Option.map_some', Option.some.injEq, reduceCtorEq, false_or]
    refine ⟨?_, ?_, ?_, ?_, rfl⟩
    · intro h
      exact hzero ((hsign 0 h).1.1 rfl)
    · intro n hn hne
      exact hkeep (fun h0 => hne ((hsign n hn).1.2 h0))
    · intro n hn hne hlt
      rw [← hn]
      refine hsmall (fun h0 => hne ((hsign n hn).1.2 h0)) ?_
      rw [← (hsign n hn).2]
      exact hlt
    · by_cases h0 : m = 0
      · have hx : (if negative then -(m : Int) else (m : Int)) = 0 := by
          subst h0
          cases negative <;> rfl
        rw [hzero h0]
        constructor
        · intro _
          exact Or.inl hx
        · intro _
          rfl
      · by_cases hs : m < 2 ^ 53
        · rw [hsmall h0 hs]
          constructor
          · intro hr
            refine Or.inr ⟨_, rfl, ?_⟩
            simpa [JsNumber.inRange] using hr
          · rintro (hx | ⟨n, hn, h1, h60⟩)
            · exact absurd ((hsign 0 hx).1.1 rfl) h0
            · rw [hn]
              simp [JsNumber.inRange, h1, h60]
        · have hl : 2 ^ 53 ≤ m := Nat.le_of_not_lt hs
          rw [hlarge hl]
          constructor
          · intro hr
            exact absurd hr (by simp)
          · rintro (hx | ⟨n, hn, h1, h60⟩)
            · exact absurd ((hsign 0 hx).1.1 rfl) h0
            · exfalso
              have hm := (hsign n hn).2
              have hm60 : 60 < m := Nat.lt_of_lt_of_le (by decide) hl
              omega

/-- C3, witness: the text `abc` is non-numeric and stores 12, the text `36`
stores 36. -/
theorem onValidityChange_stored_witness :
    integerValue "abc" = none ∧
      (onValidityChange initialState "abc").enrollData.validityMonths = 12 ∧
      integerValue "36" = some 36 ∧
      (onValidityChange initialState "36").enrollData.validityMonths = JsNumber.finite 36 :=
  ⟨by decide,
   (onValidityChange_stored initialState "abc").1 (Or.inl (by decide)),
   by decide,
   (onValidityChange_stored initialState "36").2.2.1 36 (by decide) (by decide) (by decide)⟩

/-- C3, counterexample: the text `100` has the integer value 100, outside
[1,60], and the handler stores 100, not 12. -/
theorem onValidityChange_out_of_range_counterexample :
    integerValue "100" = some 100 ∧
      (onValidityChange initialState "100").enrollData.validityMonths = JsNumber.finite 100 ∧
      (onValidityChange initialState "100").enrollData.validityMonths ≠ 12 ∧
      (onValidityChange initialState "100").enrollData.validityMonths.inRange 1 60 = false := by
  decide

/-- Beyond 2^53 `parseInt` rounds: the text `9007199254740993` gives
9007199254740992, the tie going to the even significand, and the handler
stores that. -/
theorem parseInt_rounds_to_double :
    integerValue "9007199254740993" = some 9007199254740993 ∧
      parseInt "9007199254740993" = JsNumber.finite 9007199254740992 ∧
      (onValidityChange initialState "9007199254740993").enrollData.validityMonths =
        JsNumber.finite 9007199254740992 := by
  decide

set_option maxRecDepth 100000 in
/-- A digit run beyond the largest double: a one followed by 309 zeros gives
`Infinity`, which is truthy, so the handler stores it. -/
theorem parseInt_overflows_to_infinity :
    (onValidityChange initialState
      "1000000000000000000000000000000000000000000000000000000000000000000000000000000000000000000000000000000000000000000000000000000000000000000000000000000000000000000000000000000000000000000000000000000000000000000000000000000000000000000000000000000000000000000000000000000000000000000000000000000000000000000000").enrollData.validityMonths =
        JsNumber.infinity false := by
  decide

/-! ## The handlers: proofs -/

/-- The roster loader sends one request and no `axios.post`. -/
theorem fetchUsers_requests (reply : UsersReply) (o : Outcome) :
    (fetchUsers reply o).requests =
      o.requests ++ [Request.listUsers o.state.searchTerm o.state.page 30] := by
  rcases reply with ⟨_ | _, users, total⟩ | _ <;> rfl

/-- The roster loader raises a notification only when its request is rejected. -/
theorem fetchUsers_toasts (reply : UsersReply) (o : Outcome) :
    (fetchUsers reply o).toasts =
      o.toasts ++ (if reply = UsersReply.rejected
        then [⟨some "Failed to load users", "error"⟩] else []) := by
  rcases reply with ⟨_ | _, users, total⟩ | _ <;> simp [fetchUsers, showToast]

/-- The requests of `handleCreateUser`: the create request, then the roster
reload when the reply is a success. -/
theorem handleCreateUser_requests (s : ConsoleState) (reply : PostReply) (roster : UsersReply) :
    (handleCreateUser s reply roster).requests =
      Request.createUser s.newUser ::
        (if reply.succeeded = true then [Request.listUsers s.searchTerm s.page 30] else []) := by
  rcases reply with ⟨_ | _, m⟩ | m
  · rfl
  · simp [handleCreateUser, fetchUsers_requests, showToast, PostReply.succeeded]
  · rfl

/-- The requests of `handleEnrollUser` once a user is selected and a course is
chosen: the enroll request, then the roster reload when the reply is a
success. -/
theorem handleEnrollUser_requests (s : ConsoleState) (reply : PostReply) (roster : UsersReply)
    (user : User) (hu : s.selectedUser = some user) (hc : s.enrollData.courseId ≠ "") :
    (handleEnrollUser s reply roster).requests =
      Request.enrollUser user._id s.enrollData.courseId s.enrollData.validityMonths ::
        (if reply.succeeded = true then [Request.listUsers s.searchTerm s.page 30] else []) := by
  rcases reply with ⟨_ | _, m⟩ | m <;>
    simp [handleEnrollUser, hu, hc, fetchUsers_requests, showToast, PostReply.succeeded]

/-- The outcome of `handleEnrollUser` when its guard stops it. -/
theorem handleEnrollUser_blocked (s : ConsoleState) (reply : PostReply) (roster : UsersReply)
    (h : s.selectedUser = none ∨ s.enrollData.courseId = "") :
    handleEnrollUser s reply roster =
      showToast (some "Please select a course") "error" (Outcome.start s) := by
  unfold handleEnrollUser
  rcases h with h | h
  · simp [h]
  · cases hu : s.selectedUser <;> simp [h]

/-- The requests of `handleRemoveEnrollment` after a confirmed prompt. -/
theorem handleRemoveEnrollment_requests (confirm : String → Bool) (s : ConsoleState)
    (userId courseId courseName : String) (reply : PostReply) (roster : UsersReply)
    (h : confirm (confirmPrompt courseName) = true) :
    (handleRemoveEnrollment confirm s userId courseId courseName reply roster).requests =
      Request.removeEnrollment userId courseId ::
        (if reply.succeeded = true then [Request.listUsers s.searchTerm s.page 30] else []) := by
  rcases reply with ⟨_ | _, m⟩ | m <;>
    simp [handleRemoveEnrollment, h, fetchUsers_requests, showToast, PostReply.succeeded]

/-- C4: with no user selected or an empty courseId in the draft,
`handleEnrollUser` sends no request and raises the error notification;
otherwise its only `axios.post` is the enroll request, sent first, with the id
of the selected user and the courseId and validityMonths of the draft, and
validityMonths is 12 when the draft was opened and only a course was chosen. -/
theorem handleEnrollUser_contract (s : ConsoleState) (reply : PostReply) (roster : UsersReply) :
    ((s.selectedUser = none ∨ s.enrollData.courseId = "") →
      (handleEnrollUser s reply roster).requests = [] ∧
      (handleEnrollUser s reply roster).toasts = [⟨some "Please select a course", "error"⟩]) ∧
    (∀ user : User, s.selectedUser = some user → s.enrollData.courseId ≠ "" →
      (handleEnrollUser s reply roster).requests.filter Request.isPost =
          [Request.enrollUser user._id s.enrollData.courseId s.enrollData.validityMonths] ∧
      (handleEnrollUser s reply roster).requests.head? =
          some (Request.enrollUser user._id s.enrollData.courseId
            s.enrollData.validityMonths)) ∧
    (∀ (user : User) (courseId : String), courseId ≠ "" →
      (handleEnrollUser (onCourseChange (openEnrollModal s user) courseId)
          reply roster).requests.filter Request.isPost =
        [Request.enrollUser user._id courseId 12]) := by
  have sent : ∀ (t : ConsoleState) (user : User), t.selectedUser = some user →
      t.enrollData.courseId ≠ "" →
      (handleEnrollUser t reply roster).requests.filter Request.isPost =
        [Request.enrollUser user._id t.enrollData.courseId t.enrollData.validityMonths] := by
    intro t user hu hc
    rw [handleEnrollUser_requests t reply roster user hu hc]
    by_cases hr : reply.succeeded = true <;> simp [hr, Request.isPost]
  refine ⟨?_, ?_, ?_⟩
  · intro h
    rw [handleEnrollUser_blocked s reply roster h]
    exact ⟨rfl, rfl⟩
  · intro user hu hc
    refine ⟨sent s user hu hc, ?_⟩
    rw [handleEnrollUser_requests s reply roster user hu hc]
    rfl
  · intro user courseId hc
    exact sent (onCourseChange (openEnrollModal s user) courseId) user rfl hc

/-- C4, witness: on mount nothing is sent; after the modal was opened for a
user and course `c1` chosen, the one `axios.post` carries validityMonths 12. -/
theorem handleEnrollUser_contract_witness :
    (handleEnrollUser initialState (PostReply.resolved true none) UsersReply.rejected).requests
        = [] ∧
      (handleEnrollUser readyToEnroll (PostReply.resolved true (some "Enrolled"))
          UsersReply.rejected).requests.filter Request.isPost =
        [Request.enrollUser "u2" "c1" 12] :=
  ⟨((handleEnrollUser_contract initialState (PostReply.resolved true none)
      UsersReply.rejected).1 (Or.inl rfl)).1,
   ((handleEnrollUser_contract readyToEnroll (PostReply.resolved true (some "Enrolled"))
      UsersReply.rejected).2.1 userWithoutList rfl (by decide)).1⟩

/-- A reply that resolves with a false `success` field raises no notification
in any of the three handlers: none of them has a branch for it. -/
theorem unsuccessful_reply_is_silent (confirm : String → Bool) (s : ConsoleState)
    (m : Option String) (roster : UsersReply) (userId courseId courseName : String)
    (user : User) (hu : s.selectedUser = some user) (hc : s.enrollData.courseId ≠ "") :
    (handleCreateUser s (PostReply.resolved false m) roster).toasts = [] ∧
    (handleEnrollUser s (PostReply.resolved false m) roster).toasts = [] ∧
    (handleRemoveEnrollment confirm s userId courseId courseName
      (PostReply.resolved false m) roster).toasts = [] := by
  refine ⟨rfl, by simp [handleEnrollUser, hu, hc], ?_⟩
  cases hq : confirm (confirmPrompt courseName) <;>
    simp [handleRemoveEnrollment, hq, Outcome.start]

/-- C5, as amended: a thrown error raises exactly one notification of severity
error in each of the three handlers. For create-user and enroll-user its
message is the message of the server when there is a non-empty one and the
fixed string of the operation otherwise; for remove-enrollment it is always
the fixed string. -/
theorem thrown_error_notifications (confirm : String → Bool) (s : ConsoleState)
    (roster : UsersReply) :
    (∀ m : String, m ≠ "" →
      (handleCreateUser s (PostReply.rejected (some m)) roster).toasts =
        [⟨some m, "error"⟩]) ∧
    (∀ m : Option String, (m = none ∨ m = some "") →
      (handleCreateUser s (PostReply.rejected m) roster).toasts =
        [⟨some "Failed to create user", "error"⟩]) ∧
    (∀ user : User, s.selectedUser = some user → s.enrollData.courseId ≠ "" →
      (∀ m : String, m ≠ "" →
        (handleEnrollUser s (PostReply.rejected (some m)) roster).toasts =
          [⟨some m, "error"⟩]) ∧
      (∀ m : Option String, (m = none ∨ m = some "") →
        (handleEnrollUser s (PostReply.rejected m) roster).toasts =
          [⟨some "Failed to enroll user", "error"⟩])) ∧
    (∀ (userId courseId courseName : String) (m : Option String),
      confirm (confirmPrompt courseName) = true →
      (handleRemoveEnrollment confirm s userId courseId courseName
          (PostReply.rejected m) roster).toasts =
        [⟨some "Failed to remove enrollment", "error"⟩]) := by
  refine ⟨?_, ?_, ?_, ?_⟩
  · intro m hm
    simp [handleCreateUser, showToast, messageOr, hm]
  · rintro m (h | h) <;> simp [handleCreateUser, showToast, messageOr, h]
  · intro user hu hc
    refine ⟨?_, ?_⟩
    · intro m hm
      simp [handleEnrollUser, hu, hc, showToast, messageOr, hm]
    · rintro m (h | h) <;> simp [handleEnrollUser, hu, hc, showToast, messageOr, h]
  · intro userId courseId courseName m h
    simp [handleRemoveEnrollment, h, showToast]

/-- C5, witness: a rejected enroll request whose error carries the message
`Course not found` raises that message with severity error. -/
theorem thrown_error_notifications_witness :
    (handleEnrollUser readyToEnroll (PostReply.rejected (some "Course not found"))
        UsersReply.rejected).toasts = [⟨some "Course not found", "error"⟩] ∧
      (handleRemoveEnrollment (fun _ => true) initialState "u1" "c1" "Quant"
        (PostReply.rejected none) UsersReply.rejected).toasts =
          [⟨some "Failed to remove enrollment", "error"⟩] :=
  ⟨((thrown_error_notifications (fun _ => true) readyToEnroll UsersReply.rejected).2.2.1
      userWithoutList rfl (by decide)).1 "Course not found" (by decide),
   (thrown_error_notifications (fun _ => true) initialState UsersReply.rejected).2.2.2
      "u1" "c1" "Quant" none rfl⟩

/-- C5, counterexample: a create-user reply that resolves with `success` false
and a message raises no notification at all, and a rejected remove-enrollment
request whose error carries a message raises the fixed string, not that
message. -/
theorem failure_notifications_counterexample :
    (handleCreateUser initialState (PostReply.resolved false (some "Email already registered"))
        UsersReply.rejected).toasts = [] ∧
      (handleRemoveEnrollment (fun _ => true) initialState "u1" "c1" "Quant"
        (PostReply.rejected (some "Enrollment not found")) UsersReply.rejected).toasts =
          [⟨some "Failed to remove enrollment", "error"⟩] ∧
      (handleRemoveEnrollment (fun _ => true) initialState "u1" "c1" "Quant"
        (PostReply.rejected (some "Enrollment not found")) UsersReply.rejected).toasts ≠
          [⟨some "Enrollment not found", "error"⟩] := by
  refine ⟨rfl, rfl, by decide⟩

/-- The handler `handleCreateUser` has no guard of its own: called with an
empty name it still sends the create request. -/
theorem handleCreateUser_sends_unconditionally (s : ConsoleState) (reply : PostReply)
    (roster : UsersReply) :
    (handleCreateUser s reply roster).requests.head? = some (Request.createUser s.newUser) := by
  rw [handleCreateUser_requests]; rfl

/-- C6: submitting the create form with an empty name sends no request, the
create-user request included: the `required` name input fails constraint
validation and `handleCreateUser` is not run. -/
theorem submitCreateForm_empty_name (validEmail : String → Bool) (s : ConsoleState)
    (reply : PostReply) (roster : UsersReply) (h : s.newUser.name = "") :
    (submitCreateForm validEmail s reply roster).requests = [] ∧
      (submitCreateForm validEmail s reply roster).state = s := by
  simp [submitCreateForm, createFormValid, h, Outcome.start]

/-- C6, witness: the untouched form of a freshly mounted console has an empty
name and its submission sends nothing. -/
theorem submitCreateForm_empty_name_witness :
    initialState.newUser.name = "" ∧
      (submitCreateForm (fun _ => true) initialState (PostReply.resolved true none)
        UsersReply.rejected).requests = [] :=
  ⟨rfl, (submitCreateForm_empty_name (fun _ => true) initialState (PostReply.resolved true none)
      UsersReply.rejected rfl).1⟩

/-- C8: a declined confirmation sends no request; a confirmed one sends the
remove-enrollment request first, with the userId and courseId it was given,
and no other `axios.post`. -/
theorem handleRemoveEnrollment_contract (confirm : String → Bool) (s : ConsoleState)
    (userId courseId courseName : String) (reply : PostReply) (roster : UsersReply) :
    (confirm (confirmPrompt courseName) = false →
      (handleRemoveEnrollment confirm s userId courseId courseName reply roster).requests
        = []) ∧
    (confirm (confirmPrompt courseName) = true →
      (handleRemoveEnrollment confirm s userId courseId courseName reply
          roster).requests.filter Request.isPost =
        [Request.removeEnrollment userId courseId] ∧
      (handleRemoveEnrollment confirm s userId courseId courseName reply
          roster).requests.head? = some (Request.removeEnrollment userId courseId)) := by
  refine ⟨?_, ?_⟩
  · intro h
    simp [handleRemoveEnrollment, h, Outcome.start]
  · intro h
    rw [handleRemoveEnrollment_requests confirm s userId courseId courseName reply roster h]
    by_cases hr : reply.succeeded = true <;> simp [hr, Request.isPost]

/-- C8, witness: declining sends nothing, confirming sends the one request for
user `u1` and course `c1`. -/
theorem handleRemoveEnrollment_contract_witness :
    (handleRemoveEnrollment (fun _ => false) initialState "u1" "c1" "Quant"
        (PostReply.resolved true none) UsersReply.rejected).requests = [] ∧
      (handleRemoveEnrollment (fun _ => true) initialState "u1" "c1" "Quant"
        (PostReply.resolved true none) UsersReply.rejected).requests.filter Request.isPost =
          [Request.removeEnrollment "u1" "c1"] :=
  ⟨(handleRemoveEnrollment_contract (fun _ => false) initialState "u1" "c1" "Quant"
      (PostReply.resolved true none) UsersReply.rejected).1 rfl,
   ((handleRemoveEnrollment_contract (fun _ => true) initialState "u1" "c1" "Quant"
      (PostReply.resolved true none) UsersReply.rejected).2 rfl).1⟩

/-- C9: the change handler of the search input stores the new term and page 1
and touches nothing else that the roster request reads, so the request sent
from the resulting state carries the new term, page 1 and limit 30; from any
state the roster request carries the current searchTerm, the current page and
limit 30. -/
theorem onSearchChange_roster_request (s : ConsoleState) (value : String) (reply : UsersReply) :
    (onSearchChange s value).searchTerm = value ∧
    (onSearchChange s value).page = 1 ∧
    (fetchUsers reply (Outcome.start (onSearchChange s value))).requests =
      [Request.listUsers value 1 30] ∧
    (fetchUsers reply (Outcome.start s)).requests =
      [Request.listUsers s.searchTerm s.page 30] := by
  refine ⟨rfl, rfl, ?_, ?_⟩ <;> rw [fetchUsers_requests] <;> rfl

/-! ## The enrolled-courses cell and the notification slot: concrete runs -/

/-- When the placeholder is rendered no badge is: the cell never shows both. -/
theorem enrolledBadges_nil_of_placeholder (user : User)
    (h : noCoursesPlaceholder user ≠ []) : enrolledBadges user = [] := by
  unfold noCoursesPlaceholder at h
  split at h
  · rename_i hlen
    have hnil := List.length_eq_zero.mp hlen
    rw [List.filter_eq_nil_iff] at hnil
    simp only [enrolledBadges, List.map_eq_nil_iff, List.filter_eq_nil_iff]
    intro e he
    have := hnil e he
    simp only [isActiveEnrollment, Bool.and_eq_true, not_and]
    intro hs
    exact absurd hs this
  · exact absurd rfl h

/-- A lone notification is on screen for exactly 4000 ms from its call. -/
theorem Notification.visibleAt_single (c : Notification.Call) (t : Nat) :
    Notification.visibleAt [c] t = Notification.claimedVisibleAt [c] t := by
  by_cases h : t < c.time + 4000
  · simp [Notification.visibleAt, Notification.claimedVisibleAt, Notification.runCalls,
      Notification.showToast, Notification.fireTimers, h, Nat.not_le.mpr h]
  · simp [Notification.visibleAt, Notification.claimedVisibleAt, Notification.runCalls,
      Notification.showToast, Notification.fireTimers, h, Nat.le_of_not_lt h]

/-- After the timers due at `now` have fired, every pending timer is due later. -/
theorem Notification.fireTimers_pending (now : Nat) (ch : Notification.Channel) :
    ∀ due ∈ (Notification.fireTimers now ch).timers, now < due := by
  intro due hd
  unfold Notification.fireTimers at hd
  split at hd
  · simpa using (List.mem_filter.mp hd).2
  · rename_i hany
    by_contra hlt
    exact hany (List.any_eq_true.mpr ⟨due, hd, by simpa using Nat.le_of_not_lt hlt⟩)

/-- With no timer due the event loop leaves the channel as it is. -/
theorem Notification.fireTimers_idle (now : Nat) (ch : Notification.Channel)
    (h : ch.timers.any (fun due => decide (due ≤ now)) = false) :
    Notification.fireTimers now ch = ch := by
  simp [Notification.fireTimers, h]

/-- Running a sequence of calls that ends with `c`. -/
theorem Notification.runCalls_append (calls : List Notification.Call) (c : Notification.Call)
    (ch : Notification.Channel) :
    Notification.runCalls (calls ++ [c]) ch =
      Notification.showToast c.time c.message c.type
        (Notification.fireTimers c.time (Notification.runCalls calls ch)) := by
  induction calls generalizing ch with
  | nil => rfl
  | cons d ds ih => simpa [Notification.runCalls] using ih _

/-- A newly raised notification is on screen at once, whatever was shown and
whatever timers were pending. -/
theorem Notification.visibleAt_last_call (calls : List Notification.Call)
    (c : Notification.Call) :
    Notification.visibleAt (calls ++ [c]) c.time = some ⟨c.message, c.type⟩ := by
  unfold Notification.visibleAt
  rw [Notification.runCalls_append]
  have hp := Notification.fireTimers_pending c.time (Notification.runCalls calls ⟨none, []⟩)
  have hnone : ((Notification.showToast c.time c.message c.type
      (Notification.fireTimers c.time (Notification.runCalls calls ⟨none, []⟩))).timers.any
        (fun due => decide (due ≤ c.time))) = false := by
    rw [List.any_eq_false]
    intro due hd
    simp only [Notification.showToast, List.mem_append, List.mem_singleton] at hd
    rcases hd with hd | hd
    · simpa using hp due hd
    · simp [hd]
  rw [Notification.fireTimers_idle _ _ hnone]
  rfl

/-- C10, the failing input: for a user whose only record is unlocked with a
`null` courseId the cell has no badge and no placeholder; it is empty. -/
theorem enrolledCell_dangling_record_empty :
    enrolledBadges userWithDanglingRecord = [] ∧
      noCoursesPlaceholder userWithDanglingRecord = [] ∧
      enrolledCell userWithDanglingRecord = [] := by
  decide

/-- C7, the failing input: A is raised at 0 ms and B at 3000 ms. At 4500 ms the
timer of A has cleared the slot, so nothing is on screen, while B was raised
1500 ms earlier and the claim has it on screen; B was shown for 1000 ms. -/
theorem visibleAt_stale_timer :
    Notification.visibleAt [⟨0, some "A", "success"⟩, ⟨3000, some "B", "error"⟩] 3999 =
        some ⟨some "B", "error"⟩ ∧
      Notification.visibleAt [⟨0, some "A", "success"⟩, ⟨3000, some "B", "error"⟩] 4500 = none ∧
      Notification.claimedVisibleAt [⟨0, some "A", "success"⟩, ⟨3000, some "B", "error"⟩] 4500 =
        some ⟨some "B", "error"⟩ := by
  decide

end UserManagement
